import Mathlib

/-!
Shallow embedding of `src/api-tester.go`, a command-line HTTP load tester:
`main` resolves a configuration from the argument list, builds one shared
HTTP transport, partitions `totalCalls` across `numThreads` workers,
launches them, joins, and prints summary statistics; each worker
(`fetchData`) builds one GET request template and runs its assigned calls
sequentially, appending each measured elapsed time to a shared slice under
a mutex.

Modelling choices, used throughout:
* Go `int` values are modelled as `Int` (all claim-relevant values are far
  from the 64-bit boundaries, so wrap-around is not modelled); Go integer
  division and remainder truncate toward zero, which is `Int.tdiv` and
  `Int.tmod`, and panic when the divisor is zero.
* `time.Duration` values are modelled in integer milliseconds (the program
  only ever constructs whole-millisecond durations).
* `float64` quantities are modelled over `ℚ`, except that division is given
  its IEEE-754 behaviour on the special operands this program can produce
  (`0/0 = NaN`); rounding plays no role in any claim.
* The network is an oracle: each call's observable outcome (whether `Do`
  returned an error, whether the response was non-nil, the measured elapsed
  time, the status string, whether draining or closing the body errored) is
  a `CallBehavior` supplied per worker and per call index.
* Go runtime panics that this program can reach are made explicit as
  `GoPanic` values.
-/

namespace ApiTester

/-- Go runtime panics reachable by this program: integer division by zero
(line 189 when `numThreads = 0`), nil-pointer dereference (line 45/47 when
the request template is nil), and slice index out of range (the flag loop
reads `os.Args[i]` after `i++` without a bounds check). -/
inductive GoPanic
  | divideByZero
  | nilPointerDereference
  | indexOutOfRange
  deriving DecidableEq, Repr

/-- Model of `strings.HasPrefix` (line 118 and, composed with
`strings.ToLower`, line 183): a character-list prefix test. -/
def strHasPre (s p : String) : Bool := p.toList.isPrefixOf s.toList

/-- Model of `strings.ToLower`: lowercase every character. -/
def lowerStr (s : String) : String := String.mk (s.toList.map Char.toLower)

/-! ### Work partition (lines 188-200) -/

/-- Line 189: `callsPerGoroutine := totalCalls / numThreads`; Go `/` on
`int` truncates toward zero. -/
def callsPerGoroutine (totalCalls numThreads : Int) : Int :=
  Int.tdiv totalCalls numThreads

/-- Line 190: `remainderCalls := totalCalls % numThreads`; Go `%` on `int`
truncates toward zero. -/
def remainderCalls (totalCalls numThreads : Int) : Int :=
  Int.tmod totalCalls numThreads

/-- Lines 194-197: the call count handed to the goroutine with index `i`
(`numCalls := callsPerGoroutine; if i < remainderCalls { numCalls++ }`).
The loop index is a Go `int` running from 0, hence the cast. -/
def numCallsFor (totalCalls numThreads : Int) (i : Nat) : Int :=
  if (i : Int) < remainderCalls totalCalls numThreads then
    callsPerGoroutine totalCalls numThreads + 1
  else
    callsPerGoroutine totalCalls numThreads

/-- Lines 193-200: the per-worker call counts for workers `0, 1, ...,
numThreads - 1`, in worker-index order (for `numThreads ≤ 0` the Go loop
runs zero times). -/
def assignments (totalCalls numThreads : Int) : List Int :=
  (List.range numThreads.toNat).map (numCallsFor totalCalls numThreads)

/-! ### Configuration and argument parsing (lines 80-174) -/

/-- The run configuration resolved by `main` (variables declared at lines
86-100, overridden by the flag loop at lines 126-174). Durations are in
milliseconds. -/
structure Config where
  url : String
  totalCalls : Int
  numThreads : Int
  sleepTimeMs : Int
  requestTimeOutMs : Int
  connectTimeOutMs : Int
  reuseConnects : Bool
  keepConnectsOpen : Bool
  deriving DecidableEq, Repr

/-- Lines 86-100: the variable initialisations that run before the flag
loop. Note line 96: `connectTimeOut := requestTimeOut * 3` is evaluated
here, from the default `requestTimeOut` of 10000 ms, before any flag
override is applied. -/
def initialConfig (url : String) : Config :=
  { url := url
    totalCalls := 10000
    numThreads := 12
    sleepTimeMs := 0
    requestTimeOutMs := 10000
    connectTimeOutMs := 10000 * 3
    reuseConnects := false
    keepConnectsOpen := false }

/-- Decimal value of a digit character (`c.toNat - 48` maps the character
code of a digit to its value). -/
def digitVal (c : Char) : Option Nat :=
  if c.isDigit then some (c.toNat - 48) else none

/-- Accumulate the decimal value of a digit string; fails on the first
non-digit character. -/
def digitsVal : List Char → Nat → Option Nat
  | [], acc => some acc
  | c :: cs, acc =>
    match digitVal c with
    | none => none
    | some d => digitsVal cs (acc * 10 + d)

/-- A non-empty all-digit string, read in base 10. -/
def parseDigits (cs : List Char) : Option Nat :=
  match cs with
  | [] => none
  | _ => digitsVal cs 0

/-- Model of `strconv.Atoi` for what this program feeds it: an optional
sign followed by one or more decimal digits; `strconv.Atoi`'s 64-bit range
check is not modelled (every claim-relevant value is small). -/
def atoi (s : String) : Option Int :=
  match s.toList with
  | [] => none
  | '-' :: cs => (parseDigits cs).map (fun v => -(v : Int))
  | '+' :: cs => (parseDigits cs).map (fun v => (v : Int))
  | cs => (parseDigits cs).map (fun v => (v : Int))

/-- Model of `time.ParseDuration(token + "ms")` (lines 147, 155, 163) for
integer tokens: an optional sign and decimal digits parse to that many
milliseconds. Fractional or multi-unit duration syntax is never produced by
the claims and is not modelled. -/
def parseDurationMs (s : String) : Option Int := atoi s

/-- Result of the flag loop: a resolved configuration, an early return
after printing an error and the usage text (lines 132-136 and the parallel
branches), or a runtime panic (a value-taking flag as the final argument
makes `os.Args[i]` go out of range after `i++`). -/
inductive ParseResult
  | ok (cfg : Config)
  | badArg (tok : String)
  | panicked (p : GoPanic)
  deriving DecidableEq, Repr

/-- Lines 126-174: the flag loop over `os.Args[2:]`. Value-taking flags
consume the following token; unknown tokens are skipped without error;
there is no validation of any parsed value (in particular none of
`numThreads ≥ 1`). -/
def parseFlags (cfg : Config) : List String → ParseResult
  | [] => .ok cfg
  | tok :: rest =>
    if tok = "-totalCalls" then
      match rest with
      | [] => .panicked .indexOutOfRange
      | v :: rest2 =>
        match atoi v with
        | none => .badArg v
        | some k => parseFlags { cfg with totalCalls := k } rest2
    else if tok = "-numThreads" then
      match rest with
      | [] => .panicked .indexOutOfRange
      | v :: rest2 =>
        match atoi v with
        | none => .badArg v
        | some k => parseFlags { cfg with numThreads := k } rest2
    else if tok = "-sleepTime" then
      match rest with
      | [] => .panicked .indexOutOfRange
      | v :: rest2 =>
        match parseDurationMs v with
        | none => .badArg v
        | some k => parseFlags { cfg with sleepTimeMs := k } rest2
    else if tok = "-requestTimeOut" then
      match rest with
      | [] => .panicked .indexOutOfRange
      | v :: rest2 =>
        match parseDurationMs v with
        | none => .badArg v
        | some k => parseFlags { cfg with requestTimeOutMs := k } rest2
    else if tok = "-connectTimeOut" then
      match rest with
      | [] => .panicked .indexOutOfRange
      | v :: rest2 =>
        match parseDurationMs v with
        | none => .badArg v
        | some k => parseFlags { cfg with connectTimeOutMs := k } rest2
    else if tok = "-reuseConnects" then
      parseFlags { cfg with reuseConnects := true } rest
    else if tok = "-keepConnectsOpen" then
      parseFlags { cfg with keepConnectsOpen := true } rest
    else
      parseFlags cfg rest

/-! ### Transport construction (lines 176-186) -/

/-- The fields of the `http.Transport` and `tls.Config` that `main` sets. -/
structure Transport where
  maxIdleConns : Int
  idleConnTimeoutMs : Int
  disableCompression : Bool
  disableKeepAlives : Bool
  insecureSkipVerify : Bool
  deriving DecidableEq, Repr

/-- Lines 177-185: the shared transport, built once per run.
`InsecureSkipVerify` is set exactly when the lowercased URL starts with
"https". -/
def mkTransport (cfg : Config) : Transport :=
  { maxIdleConns := cfg.numThreads * 10
    idleConnTimeoutMs := cfg.connectTimeOutMs
    disableCompression := true
    disableKeepAlives := !cfg.reuseConnects
    insecureSkipVerify := strHasPre (lowerStr cfg.url) "https" }

/-! ### The worker `fetchData` (lines 33-78) -/

/-- The network oracle for one call: what `httpClient.Do` and the
subsequent body handling return. `doFails` is whether `Do` returned a
non-nil error, `respNonNil` whether it returned a non-nil response,
`elapsedMs` the measured wall time of the call in milliseconds,
`status` the response status string, and `copyFails` / `closeFails`
whether `io.Copy` / `resp.Body.Close()` returned a non-nil error. -/
structure CallBehavior where
  doFails : Bool
  respNonNil : Bool
  elapsedMs : ℚ
  status : String
  copyFails : Bool
  closeFails : Bool

/-- The observable effect of one iteration of the call loop (lines 50-77):
the elapsed time appended to the shared slice (line 73), whether the line
printed under the lock was the failure form (line 69) or the success form
(line 71), the status string a success line would show (the worker's
mutable `status` variable), and whether the response body was drained
(line 62) and closed (line 63). -/
structure CallRecord where
  appendedTime : ℚ
  loggedAsFailure : Bool
  loggedStatus : String
  drainedBody : Bool
  closedBody : Bool

/-- Line 59: the worker's mutable `status` variable is overwritten only
when the response is non-nil. -/
def statusAfter (status : String) (b : CallBehavior) : String :=
  if b.respNonNil then b.status else status

/-- One iteration of the call loop, lines 50-76, for a worker whose
`status` variable currently holds `status`. Note the `err` flow: `err`
starts as `Do`'s error (line 53); when the response is non-nil and
`keepConnectsOpen` is false it is overwritten by `io.Copy`'s error
(line 62) and then by `Body.Close()`'s error (line 63), so the logged
branch (line 68) tests `closeFails` in that case and `doFails` otherwise. -/
def callRecord (keepConnectsOpen : Bool) (status : String) (b : CallBehavior) : CallRecord :=
  { appendedTime := b.elapsedMs
    loggedAsFailure :=
      if b.respNonNil && !keepConnectsOpen then b.closeFails else b.doFails
    loggedStatus := statusAfter status b
    drainedBody := b.respNonNil && !keepConnectsOpen
    closedBody := b.respNonNil && !keepConnectsOpen }

/-- The call loop (lines 50-77) over a list of call indices, threading the
worker's mutable `status` variable; one `CallRecord` is produced per
iteration, in order, whatever the call's outcome. -/
def callLoop (keepConnectsOpen : Bool) (behav : Nat → CallBehavior) :
    List Nat → String → List CallRecord
  | [], _ => []
  | i :: rest, status =>
    callRecord keepConnectsOpen status (behav i) ::
      callLoop keepConnectsOpen behav rest (statusAfter status (behav i))

/-- The observable actions of one iteration of the call loop, in program
order: the HTTP round trip (line 53), then — only when the response is
non-nil and `keepConnectsOpen` is false — draining (line 62) and closing
(line 63) the body, then the locked section (lines 67-74: acquire, one log
line, the append, release), then the sleep (line 76). -/
inductive CallEvent
  | httpDo
  | drainBody
  | closeBody
  | lockAcquire
  | logLine
  | appendTime
  | lockRelease
  | sleep
  deriving DecidableEq, Repr

/-- The event trace of one iteration of the call loop (lines 50-76). -/
def callEvents (keepConnectsOpen : Bool) (b : CallBehavior) : List CallEvent :=
  [CallEvent.httpDo]
    ++ (if b.respNonNil && !keepConnectsOpen then
          [CallEvent.drainBody, CallEvent.closeBody]
        else [])
    ++ [CallEvent.lockAcquire, CallEvent.logLine, CallEvent.appendTime,
        CallEvent.lockRelease, CallEvent.sleep]

/-- What one worker contributes to the run. `reqFailureLogs` counts the
"Request creation failed" lines (line 41), `connectionHeader` the value
added to the request template's `Connection` header (lines 44-48),
`records` the per-call effects in order, and `panicked` whether the worker
hit a runtime panic (which in Go brings down the whole process). -/
structure WorkerResult where
  reqFailureLogs : Nat
  connectionHeader : Option String
  records : List CallRecord
  panicked : Option GoPanic

/-- `fetchData`, lines 33-78. `newRequestFails` is whether
`http.NewRequest` returned a non-nil error — in which case it returned a
nil request: the code logs the error (line 41) but does not return, and
immediately dereferences the nil request at `request.Header.Add`
(line 45 or 47), a nil-pointer panic; no call is ever made. Otherwise the
`Connection` header is set from `reuseConnects` and the call loop runs
`numCalls` times (zero times when `numCalls ≤ 0`), starting with the
`status` variable empty (line 36). `url`, `sleepTime` and `threadID` only
affect log text and timing and are not parameters of the model. -/
def fetchData (newRequestFails reuseConnects keepConnectsOpen : Bool)
    (numCalls : Int) (behav : Nat → CallBehavior) : WorkerResult :=
  if newRequestFails then
    { reqFailureLogs := 1
      connectionHeader := none
      records := []
      panicked := some .nilPointerDereference }
  else
    { reqFailureLogs := 0
      connectionHeader := some (if reuseConnects then "keep-alive" else "close")
      records := callLoop keepConnectsOpen behav (List.range numCalls.toNat) ""
      panicked := none }

/-- The shared `responseTimes` slice after all workers have joined, in
worker-index order. At run time the workers' appends interleave
nondeterministically under the mutex, so the actual slice is some
interleaving of the per-worker sequences; its length (and element
multiset) coincide with this worker-order concatenation, which is all the
claims about the slice concern. -/
def runResponseTimes (totalCalls numThreads : Int) (reuseConnects keepConnectsOpen : Bool)
    (reqFails : Nat → Bool) (behav : Nat → Nat → CallBehavior) : List ℚ :=
  ((List.range numThreads.toNat).map fun i =>
    (fetchData (reqFails i) reuseConnects keepConnectsOpen
        (numCallsFor totalCalls numThreads i) (behav i)).records.map
      (fun r => r.appendedTime)).flatten

/-! ### Statistics (lines 206-221) -/

/-- Shadow of a Go `float64` as produced by this program's aggregate
computations: a finite value (arithmetic modelled exactly over `ℚ`) or an
IEEE-754 special value produced by division. -/
inductive GoFloat
  | finite (q : ℚ)
  | nan
  | posInf
  | negInf
  deriving DecidableEq, Repr

/-- IEEE-754 (and Go) `float64` division on the operands this program can
produce, which are always two finite values: division never faults; `0/0`
is NaN and `x/0` for finite non-zero `x` is a signed infinity. The
remaining operand combinations are never reached by this program and are
mapped to NaN. -/
def GoFloat.div : GoFloat → GoFloat → GoFloat
  | .finite a, .finite b =>
    if b = 0 then
      (if a = 0 then .nan else if 0 < a then .posInf else .negInf)
    else .finite (a / b)
  | _, _ => .nan

/-- Lines 213-216: the accumulation loop
`for _, rt := range responseTimes { totalResponseTime += rt }`. -/
def totalResponseTime (responseTimes : List ℚ) : ℚ :=
  responseTimes.foldl (fun acc rt => acc + rt) 0

/-- Line 217: `averageResponseTime := totalResponseTime / float64(len(responseTimes))`. -/
def averageResponseTime (responseTimes : List ℚ) : GoFloat :=
  GoFloat.div (.finite (totalResponseTime responseTimes))
    (.finite (responseTimes.length : ℚ))

/-- Line 210: `requestsPerSecond := float64(totalCalls) / totalTime`. -/
def requestsPerSecond (totalCalls : Int) (totalTimeSeconds : ℚ) : GoFloat :=
  GoFloat.div (.finite (totalCalls : ℚ)) (.finite totalTimeSeconds)

/-- The three printed summary quantities (lines 219-221). -/
structure RunSummary where
  totalTimeSeconds : ℚ
  averageMs : GoFloat
  rps : GoFloat
  deriving DecidableEq, Repr

/-- Lines 206-221: the aggregate computation after the join. It is a total
function — every operation in it, including the two `float64` divisions, is
non-faulting, so this phase can never crash the process. -/
def summarize (totalCalls : Int) (responseTimes : List ℚ) (totalTimeSeconds : ℚ) : RunSummary :=
  { totalTimeSeconds := totalTimeSeconds
    averageMs := averageResponseTime responseTimes
    rps := requestsPerSecond totalCalls totalTimeSeconds }

/-- Spec-side predicate, from the claim's words: the reported average is a
defined fallback value rather than an undefined result — i.e. it is not the
NaN that an IEEE `0/0` produces. -/
def reportsDefinedFallback (v : GoFloat) : Prop := v ≠ GoFloat.nan

/-! ### Run timing model (lines 191, 204, 207) -/

/-- Time model for one run: the coordinator reads the monotone clock just
before the launch loop (line 191) and just after the join (line 204), and
each HTTP round trip performed by any worker occupies an interval of
positive length lying between the two reads — a blocking network call takes
(strictly) positive real time and happens entirely during the run. -/
structure RunSchedule where
  startClock : ℚ
  endClock : ℚ
  callIntervals : List (ℚ × ℚ)

/-- Validity of a schedule: every call interval has positive length and
lies within the run. -/
def RunSchedule.valid (s : RunSchedule) : Prop :=
  ∀ c ∈ s.callIntervals, s.startClock ≤ c.1 ∧ c.1 < c.2 ∧ c.2 ≤ s.endClock

/-- Line 207: `totalTime := endTime.Sub(startTime).Seconds()`. -/
def RunSchedule.totalTimeSeconds (s : RunSchedule) : ℚ :=
  s.endClock - s.startClock

/-! ### `main` up to the launch (lines 80-200) -/

/-- How far `main` gets before the workers run: an early return (no
arguments, help requested, invalid URL, bad flag value), a runtime panic
(with the number of workers launched before it — the division at line 189
happens before the launch loop, so that count is 0), or a successful setup
with the resolved configuration, the transport, and the partition. -/
inductive MainStep
  | noArgs
  | helpShown
  | invalidUrl
  | argError (tok : String)
  | panicked (p : GoPanic) (workersLaunched : Nat)
  | launched (cfg : Config) (tr : Transport) (assigns : List Int)

/-- Lines 80-200 of `main`, given `os.Args` (program name first): the
length check (line 103), the help scan over `os.Args[1:]` (line 110), the
URL prefix check (line 118), the flag loop (line 128), transport
construction (line 177), and the partition (lines 189-190) — which divides
by `numThreads` and so panics before any worker is launched when
`numThreads = 0`. -/
def mainSetup (args : List String) : MainStep :=
  match args with
  | [] => .noArgs
  | [_] => .noArgs
  | _prog :: urlArg :: rest =>
    if (urlArg :: rest).any (fun a => a = "-?" || a = "--help") then .helpShown
    else if strHasPre urlArg "http" then
      match parseFlags (initialConfig urlArg) rest with
      | .badArg t => .argError t
      | .panicked p => .panicked p 0
      | .ok cfg =>
        if cfg.numThreads = 0 then .panicked .divideByZero 0
        else .launched cfg (mkTransport cfg) (assignments cfg.totalCalls cfg.numThreads)
    else .invalidUrl

/-- A benign call outcome used to instantiate oracles at concrete inputs:
the call succeeds with a non-nil response and clean body handling. -/
def okCall : CallBehavior :=
  { doFails := false
    respNonNil := true
    elapsedMs := 1
    status := "200 OK"
    copyFails := false
    closeFails := false }

/-- A failing call outcome used to instantiate oracles at concrete inputs:
`Do` returns a nil response and a non-nil error. -/
def failedCall : CallBehavior :=
  { doFails := true
    respNonNil := false
    elapsedMs := 2
    status := ""
    copyFails := false
    closeFails := false }

/-! ### Helper lemmas -/

/-- Summing `q + 1` over the first `r` indices and `q` over the remaining
`n - r` ones gives `n * q + r`. -/
theorem key_sum (n q r : Nat) (h : r ≤ n) :
    ((List.range n).map (fun i => if i < r then q + 1 else q)).sum = n * q + r := by
  induction n with
  | zero => interval_cases r; simp
  | succ m ih =>
    rcases Nat.lt_or_ge m r with hm | hm
    · have hr : r = m + 1 := by omega
      subst hr
      rw [List.range_succ, List.map_append, List.sum_append]
      have hc : ∀ i ∈ List.range m, (if i < m + 1 then q + 1 else q) = q + 1 := by
        intro i hi
        rw [if_pos]
        have := List.mem_range.mp hi
        omega
      rw [List.map_congr_left hc]
      simp [List.sum_replicate, Nat.succ_sub_one]
      ring
    · rw [List.range_succ, List.map_append, List.sum_append]
      rw [ih (by omega)]
      have hlt : ¬ (m < r) := by omega
      simp [hlt]
      ring

/-- Filtering `List.range n` by `· < r` with `r ≤ n` leaves `List.range r`. -/
theorem filter_range_lt (n r : Nat) (h : r ≤ n) :
    (List.range n).filter (fun i => decide (i < r)) = List.range r := by
  induction n with
  | zero => interval_cases r; simp
  | succ m ih =>
    rcases Nat.lt_or_ge m r with hm | hm
    · have hr : r = m + 1 := by omega
      subst hr
      rw [List.range_succ, List.filter_append, List.filter_eq_self.mpr]
      · simp [List.range_succ]
      · intro a ha
        simp at ha ⊢
        omega
    · rw [List.range_succ, List.filter_append, ih (by omega)]
      have hlt : ¬ (m < r) := by omega
      simp [hlt]

/-- For the argument ranges the claims quantify over, Go's truncating
division agrees with natural-number division. -/
theorem callsPerGoroutine_eq (t n : Int) (ht : 0 ≤ t) (hn : 1 ≤ n) :
    callsPerGoroutine t n = ((t.toNat / n.toNat : Nat) : Int) := by
  have hn0 : 0 ≤ n := by omega
  lift t to ℕ using ht
  lift n to ℕ using hn0
  rw [callsPerGoroutine, Int.toNat_natCast, Int.toNat_natCast]
  exact_mod_cast (Int.ofNat_tdiv _ _).symm

/-- For the argument ranges the claims quantify over, Go's truncating
remainder agrees with the natural-number remainder. -/
theorem remainderCalls_eq (t n : Int) (ht : 0 ≤ t) (hn : 1 ≤ n) :
    remainderCalls t n = ((t.toNat % n.toNat : Nat) : Int) := by
  have hn0 : 0 ≤ n := by omega
  lift t to ℕ using ht
  lift n to ℕ using hn0
  rw [remainderCalls, Int.toNat_natCast, Int.toNat_natCast]
  exact_mod_cast (Int.ofNat_tmod _ _).symm

/-- The per-worker call count, expressed over naturals. -/
theorem numCallsFor_eq (t n : Int) (ht : 0 ≤ t) (hn : 1 ≤ n) (i : Nat) :
    numCallsFor t n i
      = ((if i < t.toNat % n.toNat then t.toNat / n.toNat + 1
          else t.toNat / n.toNat : Nat) : Int) := by
  rw [numCallsFor, callsPerGoroutine_eq t n ht hn, remainderCalls_eq t n ht hn]
  by_cases h : i < t.toNat % n.toNat
  · have h2 : (i : Int) < ((t.toNat % n.toNat : Nat) : Int) := by exact_mod_cast h
    rw [if_pos h2, if_pos h]
    push_cast
    ring
  · have h2 : ¬ ((i : Int) < ((t.toNat % n.toNat : Nat) : Int)) := by exact_mod_cast h
    rw [if_neg h2, if_neg h]

/-- The call loop produces one record per assigned call, whatever the
calls' outcomes and whatever the `status` variable holds. -/
theorem callLoop_length (k : Bool) (behav : Nat → CallBehavior) (l : List Nat) :
    ∀ s, (callLoop k behav l s).length = l.length := by
  induction l with
  | nil => intro s; rfl
  | cons i rest ih => intro s; simp [callLoop, ih]

/-- The record at position `i` of the call loop is the record of call
`l[i]`, for some value of the threaded `status` variable. -/
theorem callLoop_getElem (k : Bool) (behav : Nat → CallBehavior) (l : List Nat) :
    ∀ (s : String) (i : Nat) (j : Nat), l[i]? = some j →
      ∃ st, (callLoop k behav l s)[i]? = some (callRecord k st (behav j)) := by
  induction l with
  | nil => intro s i j h; simp at h
  | cons a rest ih =>
    intro s i j h
    match i with
    | 0 =>
      simp at h
      subst h
      exact ⟨s, by simp [callLoop]⟩
    | Nat.succ m =>
      simp at h
      obtain ⟨st, hst⟩ := ih (statusAfter s (behav a)) m j h
      exact ⟨st, by simpa [callLoop] using hst⟩

/-- The accumulation loop of lines 213-216 computes the sum of the list. -/
theorem totalResponseTime_eq_sum (l : List ℚ) : totalResponseTime l = l.sum := by
  rw [totalResponseTime, List.sum_eq_foldl]

/-! ### Claim theorems -/

/-- C1: for every `totalCalls ≥ 0` and `numThreads ≥ 1`, the coordinator's
partition gives every worker `base = totalCalls / numThreads` calls plus
one extra to each of the first `totalCalls % numThreads` workers by index:
the per-worker counts sum to exactly `totalCalls`, any two counts differ by
at most 1, and the workers receiving the larger count `base + 1` are
exactly the indices below `totalCalls % numThreads` (the lowest-indexed
ones); in particular `totalCalls = 10, numThreads = 3` yields counts
`[4, 3, 3]` for workers 0, 1, 2. -/
theorem partition_correct (t n : Int) (ht : 0 ≤ t) (hn : 1 ≤ n) :
    (assignments t n).sum = t
      ∧ (∀ a ∈ assignments t n, ∀ b ∈ assignments t n, a - b ≤ 1)
      ∧ (List.range n.toNat).filter
            (fun i => decide (numCallsFor t n i = callsPerGoroutine t n + 1))
          = List.range (remainderCalls t n).toNat
      ∧ assignments 10 3 = [4, 3, 3] := by
  have hn0 : 0 < n.toNat := by omega
  have hr : t.toNat % n.toNat < n.toNat := Nat.mod_lt _ hn0
  refine ⟨?_, ?_, ?_, by decide⟩
  · rw [assignments, List.map_congr_left (fun i _ => numCallsFor_eq t n ht hn i)]
    have hcast :
        (List.map (fun i =>
            ((if i < t.toNat % n.toNat then t.toNat / n.toNat + 1
              else t.toNat / n.toNat : Nat) : Int)) (List.range n.toNat)).sum
          = (((List.range n.toNat).map (fun i =>
              if i < t.toNat % n.toNat then t.toNat / n.toNat + 1
              else t.toNat / n.toNat)).sum : Int) := by
      rw [Nat.cast_list_sum, List.map_map]
      rfl
    rw [hcast, key_sum _ _ _ (le_of_lt hr), Nat.div_add_mod]
    exact Int.toNat_of_nonneg ht
  · intro a ha b hb
    obtain ⟨i, hi, rfl⟩ := List.mem_map.mp ha
    obtain ⟨j, hj, rfl⟩ := List.mem_map.mp hb
    rw [numCallsFor_eq t n ht hn i, numCallsFor_eq t n ht hn j]
    split_ifs <;> omega
  · rw [remainderCalls_eq t n ht hn, Int.toNat_natCast,
      ← filter_range_lt n.toNat (t.toNat % n.toNat) (le_of_lt hr)]
    apply List.filter_congr
    intro i hi
    rw [numCallsFor_eq t n ht hn i, callsPerGoroutine_eq t n ht hn]
    simp only [decide_eq_decide]
    by_cases h : i < t.toNat % n.toNat
    · simp only [if_pos h]
      constructor
      · intro _; exact h
      · intro _; push_cast; ring
    · simp only [if_neg h]
      constructor
      · intro hc
        exfalso
        omega
      · intro hc
        exact absurd hc h

/-- Witness for C1 at `totalCalls = 10`, `numThreads = 3`. -/
theorem partition_correct_witness :
    (assignments 10 3).sum = 10
      ∧ (∀ a ∈ assignments 10 3, ∀ b ∈ assignments 10 3, a - b ≤ 1)
      ∧ (List.range (3 : Int).toNat).filter
            (fun i => decide (numCallsFor 10 3 i = callsPerGoroutine 10 3 + 1))
          = List.range (remainderCalls 10 3).toNat
      ∧ assignments 10 3 = [4, 3, 3] :=
  partition_correct 10 3 (by decide) (by decide)

/-- C2: for every run with `totalCalls ≥ 0` and `numThreads ≥ 1` in which
no worker hits a request-construction failure, the shared response-time
sequence after the join has length exactly `totalCalls`: each worker
appends exactly one elapsed-time entry per assigned call, whatever the
calls' outcomes. -/
theorem responseTimes_length (t n : Int) (ht : 0 ≤ t) (hn : 1 ≤ n)
    (ru ko : Bool) (reqFails : Nat → Bool) (behav : Nat → Nat → CallBehavior)
    (hnf : ∀ i, reqFails i = false) :
    ((runResponseTimes t n ru ko reqFails behav).length : Int) = t
      ∧ ∀ i, ((fetchData (reqFails i) ru ko (numCallsFor t n i) (behav i)).records.length : Int)
          = numCallsFor t n i := by
  have hn0 : 0 < n.toNat := by omega
  have hr : t.toNat % n.toNat < n.toNat := Nat.mod_lt _ hn0
  have hworker : ∀ i, (fetchData (reqFails i) ru ko (numCallsFor t n i) (behav i)).records.length
      = (numCallsFor t n i).toNat := by
    intro i
    rw [hnf i]
    simp [fetchData, callLoop_length]
  constructor
  · rw [runResponseTimes, List.length_flatten, List.map_map]
    have hmap : (List.range n.toNat).map
          ((fun l => l.length) ∘ fun i =>
            (fetchData (reqFails i) ru ko (numCallsFor t n i) (behav i)).records.map
              (fun r => r.appendedTime))
        = (List.range n.toNat).map (fun i =>
            if i < t.toNat % n.toNat then t.toNat / n.toNat + 1
            else t.toNat / n.toNat) := by
      apply List.map_congr_left
      intro i hi
      simp only [Function.comp_apply, List.length_map]
      rw [hworker i, numCallsFor_eq t n ht hn i, Int.toNat_natCast]
    rw [hmap, key_sum _ _ _ (le_of_lt hr), Nat.div_add_mod]
    exact Int.toNat_of_nonneg ht
  · intro i
    rw [hworker i]
    rw [numCallsFor_eq t n ht hn i, Int.toNat_natCast]

/-- Witness for C2 at `totalCalls = 10`, `numThreads = 3`, all calls
succeeding. -/
theorem responseTimes_length_witness :
    ((runResponseTimes 10 3 false false (fun _ => false) (fun _ _ => okCall)).length : Int) = 10
      ∧ ∀ i, ((fetchData false false false (numCallsFor 10 3 i) (fun _ => okCall)).records.length : Int)
          = numCallsFor 10 3 i :=
  responseTimes_length 10 3 (by decide) (by decide) false false
    (fun _ => false) (fun _ _ => okCall) (fun _ => rfl)

/-- C3 counterexample: with `totalCalls = 0` the run completes with an
empty response-time sequence, and the average the program then computes
and prints is the IEEE NaN produced by the `float64` division `0/0` — not
a defined fallback value, contrary to the claim. -/
theorem zero_calls_average_is_nan :
    runResponseTimes 0 3 false false (fun _ => false) (fun _ _ => okCall) = []
      ∧ ¬ reportsDefinedFallback
          (averageResponseTime
            (runResponseTimes 0 3 false false (fun _ => false) (fun _ _ => okCall))) :=
  ⟨rfl, fun h => h rfl⟩

/-- C3 amended: for a run with `totalCalls = 0` the response-time sequence
is empty after the join, and computing and printing the average does not
fault or crash the process — the aggregate phase is a total computation —
but the reported average is NaN (`float64` `0/0`), not a defined fallback
value. -/
theorem zero_calls_no_crash (n : Int) (hn : 1 ≤ n) (ru ko : Bool)
    (reqFails : Nat → Bool) (behav : Nat → Nat → CallBehavior)
    (hnf : ∀ i, reqFails i = false) (tt : ℚ) :
    runResponseTimes 0 n ru ko reqFails behav = []
      ∧ summarize 0 (runResponseTimes 0 n ru ko reqFails behav) tt
          = { totalTimeSeconds := tt
              averageMs := GoFloat.nan
              rps := requestsPerSecond 0 tt } := by
  have hempty : runResponseTimes 0 n ru ko reqFails behav = [] := by
    rw [runResponseTimes, List.flatten_eq_nil_iff]
    intro l hl
    obtain ⟨i, hi, rfl⟩ := List.mem_map.mp hl
    rw [hnf i]
    have hnc : numCallsFor 0 n i = 0 := by
      rw [numCallsFor, remainderCalls, callsPerGoroutine, Int.zero_tmod, Int.zero_tdiv]
      simp
    rw [hnc]
    simp [fetchData, callLoop]
  refine ⟨hempty, ?_⟩
  rw [hempty]
  rfl

/-- Witness for C3's amended claim at `numThreads = 3`. -/
theorem zero_calls_no_crash_witness :
    runResponseTimes 0 3 true true (fun _ => false) (fun _ _ => okCall) = []
      ∧ summarize 0 (runResponseTimes 0 3 true true (fun _ => false) (fun _ _ => okCall)) 1
          = { totalTimeSeconds := 1
              averageMs := GoFloat.nan
              rps := requestsPerSecond 0 1 } :=
  zero_calls_no_crash 3 (by decide) true true (fun _ => false) (fun _ _ => okCall)
    (fun _ => rfl) 1

/-- C4 (evaluating the code at the failing input): when `http.NewRequest`
fails for a worker, the failure is logged exactly once and no call is
performed, but the worker does not short-circuit — the code falls through
to `request.Header.Add` on the nil request and the worker panics with a
nil-pointer dereference, which in Go crashes the whole process, contrary
to the claim that the process does not crash. -/
theorem request_failure_crashes :
    (fetchData true false false 5 (fun _ => okCall)).reqFailureLogs = 1
      ∧ (fetchData true false false 5 (fun _ => okCall)).records = []
      ∧ (fetchData true false false 5 (fun _ => okCall)).panicked
          = some GoPanic.nilPointerDereference :=
  ⟨rfl, rfl, rfl⟩

/-- C5: a failed HTTP call (a `Do` error with a nil response) does not
abort the worker: the loop still produces one record per assigned call —
each configured call is attempted exactly once, with no retry — and the
failed call's record is logged as a failure and carries its measured
elapsed time into the shared sequence exactly as a success would. -/
theorem failed_call_nonfatal (ru ko : Bool) (nc : Int) (behav : Nat → CallBehavior)
    (i : Nat) (hi : i < nc.toNat)
    (hfail : (behav i).doFails = true) (hnil : (behav i).respNonNil = false) :
    (fetchData false ru ko nc behav).records.length = nc.toNat
      ∧ ∃ r, (fetchData false ru ko nc behav).records[i]? = some r
          ∧ r.loggedAsFailure = true ∧ r.appendedTime = (behav i).elapsedMs := by
  constructor
  · simp [fetchData, callLoop_length]
  · have hrange : (List.range nc.toNat)[i]? = some i := List.getElem?_range hi
    obtain ⟨st, hst⟩ := callLoop_getElem ko behav (List.range nc.toNat) "" i i hrange
    refine ⟨callRecord ko st (behav i), by simpa [fetchData] using hst, ?_, rfl⟩
    simp [callRecord, hnil, hfail]

/-- Witness for C5: one worker, one call, the call failing. -/
theorem failed_call_nonfatal_witness :
    (fetchData false false false 1 (fun _ => failedCall)).records.length = (1 : Int).toNat
      ∧ ∃ r, (fetchData false false false 1 (fun _ => failedCall)).records[0]? = some r
          ∧ r.loggedAsFailure = true ∧ r.appendedTime = failedCall.elapsedMs :=
  failed_call_nonfatal false false 1 (fun _ => failedCall) 0 (by decide) rfl rfl

/-- C6 counterexample: the resolved default connect timeout is
`requestTimeOut * 3 = 30000` milliseconds, not the 20000 ms the claim (and
the program's own help text, line 25) states. -/
theorem connect_timeout_default_not_20000 :
    (initialConfig "http://localhost:8080").connectTimeOutMs = 30000
      ∧ ¬ ((initialConfig "http://localhost:8080").connectTimeOutMs = 20000) :=
  ⟨rfl, by decide⟩

/-- C6 amended: when `-connectTimeOut` is not supplied, the resolved
connect timeout defaults to 3× the `requestTimeOut` default, i.e.
30000 ms (the help text's claim of 20000 disagrees with the code); the
default is computed before flag parsing, so overriding `-requestTimeOut`
alone changes the request timeout but leaves the connect timeout at
30000 ms. -/
theorem connect_timeout_default (u v : String) (k : Int)
    (hv : parseDurationMs v = some k) :
    (initialConfig u).connectTimeOutMs = 3 * (initialConfig u).requestTimeOutMs
      ∧ (initialConfig u).connectTimeOutMs = 30000
      ∧ parseFlags (initialConfig u) ["-requestTimeOut", v]
          = .ok { initialConfig u with requestTimeOutMs := k }
      ∧ ({ initialConfig u with requestTimeOutMs := k } : Config).connectTimeOutMs = 30000 := by
  refine ⟨by norm_num [initialConfig], rfl, ?_, rfl⟩
  simp [parseFlags, hv]

/-- Witness for C6's amended claim: overriding only `-requestTimeOut` to
5000 ms leaves the connect timeout at 30000 ms. -/
theorem connect_timeout_default_witness :
    (initialConfig "http://localhost:8080").connectTimeOutMs
        = 3 * (initialConfig "http://localhost:8080").requestTimeOutMs
      ∧ (initialConfig "http://localhost:8080").connectTimeOutMs = 30000
      ∧ parseFlags (initialConfig "http://localhost:8080") ["-requestTimeOut", "5000"]
          = .ok { initialConfig "http://localhost:8080" with requestTimeOutMs := 5000 }
      ∧ ({ initialConfig "http://localhost:8080" with requestTimeOutMs := (5000 : Int) } : Config).connectTimeOutMs
          = 30000 :=
  connect_timeout_default "http://localhost:8080" "5000" 5000 rfl

/-- C7: for every call whose response is non-nil: when `keepConnectsOpen`
is false the worker drains and closes the response body, and both happen
before the log line (and hence before the loop proceeds); when
`keepConnectsOpen` is true the body is neither drained nor closed. -/
theorem body_drain_policy (ko : Bool) (st : String) (b : CallBehavior)
    (h : b.respNonNil = true) :
    ((callRecord ko st b).drainedBody = !ko ∧ (callRecord ko st b).closedBody = !ko)
      ∧ (ko = false →
          ∃ pre post, callEvents false b = pre ++ CallEvent.logLine :: post
            ∧ CallEvent.drainBody ∈ pre ∧ CallEvent.closeBody ∈ pre)
      ∧ (ko = true → CallEvent.drainBody ∉ callEvents true b
          ∧ CallEvent.closeBody ∉ callEvents true b) := by
  refine ⟨⟨by simp [callRecord, h], by simp [callRecord, h]⟩, ?_, ?_⟩
  · intro _
    refine ⟨[CallEvent.httpDo, CallEvent.drainBody, CallEvent.closeBody, CallEvent.lockAcquire],
      [CallEvent.appendTime, CallEvent.lockRelease, CallEvent.sleep], ?_, by simp, by simp⟩
    simp [callEvents, h]
  · intro _
    simp [callEvents, h]

/-- Witness for C7 at a successful call with `keepConnectsOpen = false`. -/
theorem body_drain_policy_witness :
    (((callRecord false "" okCall).drainedBody = !false
        ∧ (callRecord false "" okCall).closedBody = !false))
      ∧ (false = false →
          ∃ pre post, callEvents false okCall = pre ++ CallEvent.logLine :: post
            ∧ CallEvent.drainBody ∈ pre ∧ CallEvent.closeBody ∈ pre)
      ∧ (false = true → CallEvent.drainBody ∉ callEvents true okCall
          ∧ CallEvent.closeBody ∉ callEvents true okCall) :=
  body_drain_policy false "" okCall rfl

/-- C8: the shared transport is constructed with `DisableKeepAlives` equal
to the negation of `reuseConnects`, and every worker whose request
construction succeeds sets the request template's `Connection` header to
"keep-alive" when `reuseConnects` is true and to "close" otherwise. -/
theorem transport_and_header (cfg : Config) (ko : Bool) (nc : Int)
    (behav : Nat → CallBehavior) :
    (mkTransport cfg).disableKeepAlives = !cfg.reuseConnects
      ∧ (fetchData false cfg.reuseConnects ko nc behav).connectionHeader
          = some (if cfg.reuseConnects then "keep-alive" else "close") :=
  ⟨rfl, rfl⟩

/-- C9: after the join, the printed average equals
`sum(responseTimes) / len(responseTimes)` and the printed requests-per-
second equals `totalCalls / totalTimeSeconds`, where `totalTimeSeconds` is
the wall-clock span from just before the launch to just after the join;
for any `totalCalls ≥ 1` the run contains at least one blocking HTTP round
trip, so that span is strictly positive. -/
theorem summary_formulas (t : Int) (rts : List ℚ) (s : RunSchedule)
    (hv : s.valid) (hlen : s.callIntervals.length = t.toNat) (ht : 1 ≤ t) :
    (summarize t rts s.totalTimeSeconds).averageMs
        = GoFloat.div (.finite rts.sum) (.finite (rts.length : ℚ))
      ∧ (summarize t rts s.totalTimeSeconds).rps
          = GoFloat.div (.finite (t : ℚ)) (.finite s.totalTimeSeconds)
      ∧ 0 < s.totalTimeSeconds := by
  refine ⟨?_, rfl, ?_⟩
  · rw [summarize]
    rw [averageResponseTime, totalResponseTime_eq_sum]
  · have h1 : s.callIntervals ≠ [] := by
      intro h
      rw [h] at hlen
      simp at hlen
      omega
    obtain ⟨c, hc⟩ := List.exists_mem_of_ne_nil s.callIntervals h1
    obtain ⟨h2, h3, h4⟩ := hv c hc
    rw [RunSchedule.totalTimeSeconds]
    linarith

/-- Witness for C9: one call, occupying the interval from 0 to 1 within a
run clocked from 0 to 1. -/
theorem summary_formulas_witness :
    (summarize 1 [5] (RunSchedule.totalTimeSeconds ⟨0, 1, [(0, 1)]⟩)).averageMs
        = GoFloat.div (.finite ([(5 : ℚ)].sum)) (.finite (([(5 : ℚ)].length : ℚ)))
      ∧ (summarize 1 [5] (RunSchedule.totalTimeSeconds ⟨0, 1, [(0, 1)]⟩)).rps
          = GoFloat.div (.finite ((1 : Int) : ℚ)) (.finite (RunSchedule.totalTimeSeconds ⟨0, 1, [(0, 1)]⟩))
      ∧ 0 < RunSchedule.totalTimeSeconds ⟨0, 1, [(0, 1)]⟩ :=
  summary_formulas 1 [5] ⟨0, 1, [(0, 1)]⟩
    (by
      intro c hc
      simp at hc
      subst hc
      refine ⟨le_refl 0, ?_, le_refl 1⟩
      norm_num)
    rfl (by decide)

/-- C10: the program never validates `numThreads ≥ 1`: the flag loop
accepts `-numThreads 0` unchanged, and any argument list that reaches the
run with a resolved `numThreads = 0` hits the integer division
`totalCalls / numThreads` at line 189 — a divide-by-zero panic — before
any worker is launched. -/
theorem numThreads_zero_panics (prog urlArg : String) (rest : List String)
    (cfg : Config)
    (hurl : strHasPre urlArg "http" = true)
    (hnohelp : ((urlArg :: rest).any fun a => a = "-?" || a = "--help") = false)
    (hparse : parseFlags (initialConfig urlArg) rest = .ok cfg)
    (hzero : cfg.numThreads = 0) :
    mainSetup (prog :: urlArg :: rest) = .panicked .divideByZero 0
      ∧ ∀ u : String, parseFlags (initialConfig u) ["-numThreads", "0"]
          = .ok { initialConfig u with numThreads := 0 } := by
  constructor
  · simp [mainSetup, hnohelp, hurl, hparse, hzero]
  · intro u
    rfl

/-- Witness for C10: `api-tester http://localhost:8080 -numThreads 0`
panics with a division by zero before launching any worker. -/
theorem numThreads_zero_panics_witness :
    mainSetup ["api-tester", "http://localhost:8080", "-numThreads", "0"]
        = .panicked .divideByZero 0
      ∧ ∀ u : String, parseFlags (initialConfig u) ["-numThreads", "0"]
          = .ok { initialConfig u with numThreads := 0 } :=
  numThreads_zero_panics "api-tester" "http://localhost:8080" ["-numThreads", "0"]
    { initialConfig "http://localhost:8080" with numThreads := 0 }
    rfl rfl rfl rfl

end ApiTester
